import Mathlib

/-!
Shallow embedding of the stock-ledger / order-state-machine core of the
ERP_Gestion_Comercial_Backend repository.

The definitions below are translated from:
- src/apps/inventario/models.py        (Producto, Inventario, MovimientoInventario)
- src/apps/ventas/models.py            (Venta, DetalleVenta)
- src/apps/compras/models.py           (Compra, DetalleCompra)
- src/apps/ventas/services/venta_service.py      (VentaService)
- src/apps/compras/services/compra_service.py    (CompraService)
- src/apps/inventario/services/inventario_service.py (InventarioService.ajustar_stock)
- src/apps/ventas/serializers/write.py (DetalleVentaWriteSerializer, VentaCreateSerializer)
- src/apps/ventas/views/api.py         (VentaViewSet.create)

Django's transaction.atomic semantics (all writes of an operation commit
together or roll back together when an exception escapes) is modelled by
each operation returning Except Err DB: an error result carries no state,
so a failed operation leaves the database exactly as it was.

Decimal money fields are modelled as exact integers (an amount in
hundredths: the services only add, multiply and order-compare them, which
the scaling preserves); integer quantity fields (IntegerField) as Int.  Format strings used for movement references and
error messages are modelled as structured constructors carrying the data
that the source interpolates into the message.
-/

namespace ERP

/-- Direction of a stock movement (MovimientoInventario.TIPO_MOVIMIENTO). -/
inductive TipoMovimiento where
  | ENTRADA
  | SALIDA
deriving DecidableEq, Repr

/-- Reference string of a stock movement; the source builds these with
f-strings, here each format is a constructor carrying the interpolated data. -/
inductive Referencia where
  | venta (venta_id : Nat)
  | cancelacionVenta (venta_id : Nat) (motivo : String)
  | confirmacionCompra (numero_compra : Nat)
  | anulacionCompra (numero_compra : Nat) (motivo : String)
  | ajuste (motivo : String)
deriving DecidableEq, Repr

/-- MovimientoInventario row (apps/inventario/models.py). -/
structure Movimiento where
  producto_id : Nat
  tipo : TipoMovimiento
  cantidad : Int
  referencia : Referencia
  usuario : Nat
deriving DecidableEq, Repr

/-- Producto row (apps/inventario/models.py); estado is the active flag. -/
structure Producto where
  id : Nat
  nombre : String
  precio_compra : Int
  precio_venta : Int
  estado : Bool
deriving DecidableEq, Repr

/-- Inventario row: one-to-one stock cache per product (IntegerField, may
hold any integer). -/
structure Inventario where
  producto_id : Nat
  stock_actual : Int
deriving DecidableEq, Repr

/-- Cliente row (apps/clientes/models.py), the fields the sale flows read. -/
structure Cliente where
  id : Nat
  nombre : String
  estado : Bool
deriving DecidableEq, Repr

/-- Proveedor row (apps/proveedores/models.py), the fields the purchase
flows read. -/
structure Proveedor where
  id : Nat
  nombre : String
  estado : Bool
deriving DecidableEq, Repr

/-- Venta.ESTADO_CHOICES. -/
inductive EstadoVenta where
  | PENDIENTE
  | COMPLETADA
  | CANCELADA
deriving DecidableEq, Repr

/-- DetalleVenta row; subtotal is derived (cantidad * precio_unitario). -/
structure DetalleVenta where
  producto_id : Nat
  cantidad : Int
  precio_unitario : Int
deriving DecidableEq, Repr

/-- Venta row together with its detalles.  The model has no field for a
cancellation reason (apps/ventas/models.py). -/
structure Venta where
  id : Nat
  cliente_id : Nat
  usuario : Nat
  total : Int
  estado : EstadoVenta
  detalles : List DetalleVenta
deriving DecidableEq, Repr

/-- Compra.ESTADO_COMPRA. -/
inductive EstadoCompra where
  | PENDIENTE
  | REALIZADA
  | ANULADA
deriving DecidableEq, Repr

/-- DetalleCompra row; cantidad is a PositiveIntegerField in the model. -/
structure DetalleCompra where
  producto_id : Nat
  cantidad : Int
  precio_compra : Int
deriving DecidableEq, Repr

/-- Compra row together with its detalles; numero models the sequential
part of numero_compra ("COMP-00001"). -/
structure Compra where
  id : Nat
  numero : Nat
  proveedor_id : Nat
  usuario : Nat
  total : Int
  motivo_anulacion : Option String
  estado : EstadoCompra
  detalles : List DetalleCompra
deriving DecidableEq, Repr

/-- The relational store the services read and write. -/
structure DB where
  productos : List Producto
  clientes : List Cliente
  proveedores : List Proveedor
  inventarios : List Inventario
  movimientos : List Movimiento
  compras : List Compra
  ventas : List Venta
deriving DecidableEq, Repr

/-- Errors raised by the service layer.  Each constructor carries the data
the source interpolates into the exception message. -/
inductive Err where
  | clienteNoExiste (id : Nat)
  | productoNoExiste (id : Nat)
  | ventaNoExiste (id : Nat)
  | compraNoExiste (id : Nat)
  | inventarioNoExiste (producto_id : Nat)
  | ventaNoPendiente (estadoActual : EstadoVenta)
  | ventaYaCancelada
  | compraSinDetalles
  | proveedorNoExiste (id : Nat)
  | proveedorInactivo (nombre : String)
  | productoNoExisteCompra (producto_id : Nat)
  | precioNoPositivo (nombre : String)
  | cantidadNegativa (producto_id : Nat)
  | compraNoPendiente (estadoActual : EstadoCompra)
  | compraYaAnulada
  | sinInventarioParaAnular (nombre : String)
  | stockInsuficienteParaAnular (nombre : String) (requerido disponible : Int)
deriving DecidableEq, Repr

/-- Propositional equality of operation results is decidable, so the
operations can be evaluated on concrete stores inside proofs. -/
instance decEqExcept {ε α : Type} [DecidableEq ε] [DecidableEq α] :
    DecidableEq (Except ε α) := fun a b =>
  match a, b with
  | Except.ok x, Except.ok y =>
    if h : x = y then Decidable.isTrue (by rw [h]) else
      Decidable.isFalse (fun hc => h (Except.ok.inj hc))
  | Except.error e, Except.error f =>
    if h : e = f then Decidable.isTrue (by rw [h]) else
      Decidable.isFalse (fun hc => h (Except.error.inj hc))
  | Except.ok x, Except.error f => Decidable.isFalse (fun hc => Except.noConfusion hc)
  | Except.error e, Except.ok y => Decidable.isFalse (fun hc => Except.noConfusion hc)

/-! Lookup helpers: Model.objects.get(...) over the association lists. -/

def findProducto (db : DB) (pid : Nat) : Option Producto :=
  db.productos.find? (fun p => p.id == pid)

def findCliente (db : DB) (cid : Nat) : Option Cliente :=
  db.clientes.find? (fun c => c.id == cid)

def findProveedor (db : DB) (pid : Nat) : Option Proveedor :=
  db.proveedores.find? (fun p => p.id == pid)

def findVenta (db : DB) (vid : Nat) : Option Venta :=
  db.ventas.find? (fun v => v.id == vid)

def findCompra (db : DB) (cid : Nat) : Option Compra :=
  db.compras.find? (fun c => c.id == cid)

def findInv (l : List Inventario) (pid : Nat) : Option Inventario :=
  l.find? (fun i => i.producto_id == pid)

/-- Current on-hand quantity of a product; 0 when no Inventario row exists. -/
def stockOf (db : DB) (pid : Nat) : Int :=
  ((findInv db.inventarios pid).map Inventario.stock_actual).getD 0

/-- inventario.save() after mutating stock_actual: rewrite the row in place. -/
def setStock (l : List Inventario) (pid : Nat) (v : Int) : List Inventario :=
  l.map (fun i => if i.producto_id == pid then { i with stock_actual := v } else i)

/-- Inventario.objects.get_or_create(producto, defaults stock_actual 0):
returns the row (existing, or fresh at 0) and the updated table. -/
def getOrCreateInv (l : List Inventario) (pid : Nat) : Inventario × List Inventario :=
  match findInv l pid with
  | some i => (i, l)
  | none => (⟨pid, 0⟩, l ++ [⟨pid, 0⟩])

/-- venta.save() / compra.save() after mutating fields. -/
def setVenta (l : List Venta) (vid : Nat) (f : Venta → Venta) : List Venta :=
  l.map (fun v => if v.id == vid then f v else v)

def setCompra (l : List Compra) (cid : Nat) (f : Compra → Compra) : List Compra :=
  l.map (fun c => if c.id == cid then f c else c)

def nombreProducto (db : DB) (pid : Nat) : String :=
  ((findProducto db pid).map Producto.nombre).getD ""

/-! VentaService (src/apps/ventas/services/venta_service.py). -/

/-- One line of the detalles argument of crear_venta: producto_id, cantidad
and optional precio_unitario. -/
structure DetalleVentaReq where
  producto_id : Nat
  cantidad : Int
  precio_unitario : Option Int
deriving DecidableEq, Repr

/-- Per-line lookup of crear_venta: fetch the product (raising DoesNotExist
when absent) and default the price to producto.precio_venta. -/
def resolverDetallesVenta (db : DB) (detalles : List DetalleVentaReq) :
    Except Err (List DetalleVenta) :=
  match detalles with
  | [] => Except.ok []
  | d :: resto =>
    match findProducto db d.producto_id with
    | none => Except.error (Err.productoNoExiste d.producto_id)
    | some p =>
      (resolverDetallesVenta db resto).map
        (fun r => ⟨d.producto_id, d.cantidad, d.precio_unitario.getD p.precio_venta⟩ :: r)

def totalVenta (ds : List DetalleVenta) : Int :=
  (ds.map (fun d => d.precio_unitario * d.cantidad)).sum

/-- The stock loop of completar_venta (and of crear_venta when the estado is
COMPLETADA): per line, Inventario.objects.get, decrement stock_actual and
append a SALIDA movement referencing the sale. -/
def aplicarSalidaVenta (venta_id usuario : Nat) (ds : List DetalleVenta) (db : DB) :
    Except Err DB :=
  match ds with
  | [] => Except.ok db
  | d :: resto =>
    match findInv db.inventarios d.producto_id with
    | none => Except.error (Err.inventarioNoExiste d.producto_id)
    | some inv =>
      aplicarSalidaVenta venta_id usuario resto
        { db with
          inventarios := setStock db.inventarios d.producto_id (inv.stock_actual - d.cantidad),
          movimientos := db.movimientos ++
            [⟨d.producto_id, TipoMovimiento.SALIDA, d.cantidad, Referencia.venta venta_id, usuario⟩] }

/-- VentaService.crear_venta.  The estado parameter defaults to PENDIENTE at
the call sites; when it is COMPLETADA the creation itself reduces stock and
records SALIDA movements. -/
def crear_venta (db : DB) (cliente_id : Nat) (detalles : List DetalleVentaReq)
    (usuario : Nat) (estado : EstadoVenta) : Except Err DB :=
  match findCliente db cliente_id with
  | none => Except.error (Err.clienteNoExiste cliente_id)
  | some _ =>
    match resolverDetallesVenta db detalles with
    | Except.error e => Except.error e
    | Except.ok ds =>
      let vid := db.ventas.length + 1
      let venta : Venta := ⟨vid, cliente_id, usuario, totalVenta ds, estado, ds⟩
      let db1 : DB := { db with ventas := db.ventas ++ [venta] }
      if estado = EstadoVenta.COMPLETADA then
        aplicarSalidaVenta vid usuario ds db1
      else
        Except.ok db1

/-- VentaService.completar_venta: only the PENDIENTE check guards the stock
loop; there is no stock-sufficiency check. -/
def completar_venta (db : DB) (venta_id usuario : Nat) : Except Err DB :=
  match findVenta db venta_id with
  | none => Except.error (Err.ventaNoExiste venta_id)
  | some venta =>
    if venta.estado ≠ EstadoVenta.PENDIENTE then
      Except.error (Err.ventaNoPendiente venta.estado)
    else
      match aplicarSalidaVenta venta_id usuario venta.detalles db with
      | Except.error e => Except.error e
      | Except.ok db1 =>
        Except.ok { db1 with
          ventas := setVenta db1.ventas venta_id (fun v => { v with estado := EstadoVenta.COMPLETADA }) }

/-- The return loop of cancelar_venta for a COMPLETADA sale: per line,
increment stock_actual and append an ENTRADA movement whose reference
embeds the motivo. -/
def devolverEntradaVenta (venta_id usuario : Nat) (motivo : String)
    (ds : List DetalleVenta) (db : DB) : Except Err DB :=
  match ds with
  | [] => Except.ok db
  | d :: resto =>
    match findInv db.inventarios d.producto_id with
    | none => Except.error (Err.inventarioNoExiste d.producto_id)
    | some inv =>
      devolverEntradaVenta venta_id usuario motivo resto
        { db with
          inventarios := setStock db.inventarios d.producto_id (inv.stock_actual + d.cantidad),
          movimientos := db.movimientos ++
            [⟨d.producto_id, TipoMovimiento.ENTRADA, d.cantidad,
              Referencia.cancelacionVenta venta_id motivo, usuario⟩] }

/-- VentaService.cancelar_venta.  The motivo only reaches the movement
references; the Venta row has no field for it. -/
def cancelar_venta (db : DB) (venta_id usuario : Nat) (motivo : String) : Except Err DB :=
  match findVenta db venta_id with
  | none => Except.error (Err.ventaNoExiste venta_id)
  | some venta =>
    if venta.estado = EstadoVenta.CANCELADA then
      Except.error Err.ventaYaCancelada
    else if venta.estado = EstadoVenta.COMPLETADA then
      match devolverEntradaVenta venta_id usuario motivo venta.detalles db with
      | Except.error e => Except.error e
      | Except.ok db1 =>
        Except.ok { db1 with
          ventas := setVenta db1.ventas venta_id
            (fun v => { v with estado := EstadoVenta.CANCELADA }) }
    else
      Except.ok { db with
        ventas := setVenta db.ventas venta_id
          (fun v => { v with estado := EstadoVenta.CANCELADA }) }

/-! CompraService (src/apps/compras/services/compra_service.py). -/

/-- One line of the detalles argument of crear_compra. -/
structure DetalleCompraReq where
  producto_id : Nat
  cantidad : Int
  precio_compra : Option Int
deriving DecidableEq, Repr

/-- The validation loop of crear_compra: the product must exist and the
resolved price must be positive.  Neither the product's active flag nor the
sign of the quantity is checked here. -/
def validarDetallesCompra (db : DB) (detalles : List DetalleCompraReq) :
    Except Err (List DetalleCompra) :=
  match detalles with
  | [] => Except.ok []
  | d :: resto =>
    match findProducto db d.producto_id with
    | none => Except.error (Err.productoNoExisteCompra d.producto_id)
    | some p =>
      let precio := d.precio_compra.getD p.precio_compra
      if precio ≤ 0 then Except.error (Err.precioNoPositivo p.nombre)
      else
        (validarDetallesCompra db resto).map
          (fun r => ⟨d.producto_id, d.cantidad, precio⟩ :: r)

def totalCompra (ds : List DetalleCompra) : Int :=
  (ds.map (fun d => d.precio_compra * d.cantidad)).sum

/-- Compra.generar_numero_compra: one past the number of the last compra. -/
def numeroCompraSiguiente (db : DB) : Nat :=
  match db.compras.getLast? with
  | none => 1
  | some c => c.numero + 1

/-- CompraService.crear_compra.  The final find? models the database CHECK
constraint of DetalleCompra.cantidad (PositiveIntegerField): inserting a
negative quantity raises and rolls the transaction back; zero passes. -/
def crear_compra (db : DB) (proveedor_id : Nat) (detalles : List DetalleCompraReq)
    (usuario : Nat) : Except Err DB :=
  match findProveedor db proveedor_id with
  | none => Except.error (Err.proveedorNoExiste proveedor_id)
  | some prov =>
    if detalles.isEmpty then Except.error Err.compraSinDetalles
    else if prov.estado = false then Except.error (Err.proveedorInactivo prov.nombre)
    else
      match validarDetallesCompra db detalles with
      | Except.error e => Except.error e
      | Except.ok ds =>
        match ds.find? (fun d => decide (d.cantidad < 0)) with
        | some d => Except.error (Err.cantidadNegativa d.producto_id)
        | none =>
          let compra : Compra :=
            ⟨db.compras.length + 1, numeroCompraSiguiente db, proveedor_id, usuario,
             totalCompra ds, none, EstadoCompra.PENDIENTE, ds⟩
          Except.ok { db with compras := db.compras ++ [compra] }

/-- The stock loop of confirmar_compra: per line, get_or_create the
Inventario row, increase stock_actual, append an ENTRADA movement.  No step
can fail. -/
def aplicarEntradaCompra (numero usuario : Nat) (ds : List DetalleCompra) (db : DB) : DB :=
  match ds with
  | [] => db
  | d :: resto =>
    let par := getOrCreateInv db.inventarios d.producto_id
    aplicarEntradaCompra numero usuario resto
      { db with
        inventarios := setStock par.2 d.producto_id (par.1.stock_actual + d.cantidad),
        movimientos := db.movimientos ++
          [⟨d.producto_id, TipoMovimiento.ENTRADA, d.cantidad,
            Referencia.confirmacionCompra numero, usuario⟩] }

/-- CompraService.confirmar_compra. -/
def confirmar_compra (db : DB) (compra_id usuario : Nat) : Except Err DB :=
  match findCompra db compra_id with
  | none => Except.error (Err.compraNoExiste compra_id)
  | some compra =>
    if compra.estado ≠ EstadoCompra.PENDIENTE then
      Except.error (Err.compraNoPendiente compra.estado)
    else
      let db1 := aplicarEntradaCompra compra.numero usuario compra.detalles db
      Except.ok { db1 with
        compras := setCompra db1.compras compra_id (fun c => { c with estado := EstadoCompra.REALIZADA }) }

/-- The validation loop of anular_compra over a REALIZADA compra: every line
needs an Inventario row with stock_actual at least the line quantity; the
error names the product and, for the stock shortfall, the required and
available quantities.  Runs entirely before any reversal. -/
def validarStockAnulacion (db : DB) (ds : List DetalleCompra) : Except Err Unit :=
  match ds with
  | [] => Except.ok ()
  | d :: resto =>
    match findInv db.inventarios d.producto_id with
    | none => Except.error (Err.sinInventarioParaAnular (nombreProducto db d.producto_id))
    | some inv =>
      if inv.stock_actual < d.cantidad then
        Except.error
          (Err.stockInsuficienteParaAnular (nombreProducto db d.producto_id)
            d.cantidad inv.stock_actual)
      else validarStockAnulacion db resto

/-- The reversal loop of anular_compra: per line, decrement stock_actual and
append a SALIDA movement whose reference embeds the motivo. -/
def revertirSalidaCompra (numero : Nat) (motivo : String) (usuario : Nat)
    (ds : List DetalleCompra) (db : DB) : Except Err DB :=
  match ds with
  | [] => Except.ok db
  | d :: resto =>
    match findInv db.inventarios d.producto_id with
    | none => Except.error (Err.inventarioNoExiste d.producto_id)
    | some inv =>
      revertirSalidaCompra numero motivo usuario resto
        { db with
          inventarios := setStock db.inventarios d.producto_id (inv.stock_actual - d.cantidad),
          movimientos := db.movimientos ++
            [⟨d.producto_id, TipoMovimiento.SALIDA, d.cantidad,
              Referencia.anulacionCompra numero motivo, usuario⟩] }

/-- CompraService.anular_compra. -/
def anular_compra (db : DB) (compra_id usuario : Nat) (motivo : String) : Except Err DB :=
  match findCompra db compra_id with
  | none => Except.error (Err.compraNoExiste compra_id)
  | some compra =>
    if compra.estado = EstadoCompra.ANULADA then
      Except.error Err.compraYaAnulada
    else
      if compra.estado = EstadoCompra.REALIZADA then
        match validarStockAnulacion db compra.detalles with
        | Except.error e => Except.error e
        | Except.ok _ =>
          match revertirSalidaCompra compra.numero motivo usuario compra.detalles db with
          | Except.error e => Except.error e
          | Except.ok db1 =>
            Except.ok { db1 with
              compras := setCompra db1.compras compra_id
                (fun c =>
                  { c with estado := EstadoCompra.ANULADA, motivo_anulacion := some motivo }) }
      else
        Except.ok { db with
          compras := setCompra db.compras compra_id
            (fun c =>
              { c with estado := EstadoCompra.ANULADA, motivo_anulacion := some motivo }) }

/-! InventarioService.ajustar_stock
(src/apps/inventario/services/inventario_service.py). -/

/-- InventarioService.ajustar_stock: set the cached quantity to stock_nuevo
and record one movement of quantity abs(diferencia), with tipo ENTRADA when
the difference is strictly positive and SALIDA otherwise. -/
def ajustar_stock (db : DB) (producto_id : Nat) (stock_nuevo : Int)
    (usuario : Nat) (motivo : String) : Except Err DB :=
  match findProducto db producto_id with
  | none => Except.error (Err.productoNoExiste producto_id)
  | some _ =>
    let par := getOrCreateInv db.inventarios producto_id
    let diferencia := stock_nuevo - par.1.stock_actual
    let tipo := if 0 < diferencia then TipoMovimiento.ENTRADA else TipoMovimiento.SALIDA
    Except.ok { db with
      inventarios := setStock par.2 producto_id stock_nuevo,
      movimientos := db.movimientos ++
        [⟨producto_id, tipo, |diferencia|, Referencia.ajuste motivo, usuario⟩] }

/-! Reconstruction of stock from the movement log, and the ledger invariant
(spec section 3: current quantity = sum of IN minus sum of OUT per product). -/

/-- Total quantity of ENTRADA movements of a product. -/
def sumEntradas (movs : List Movimiento) (pid : Nat) : Int :=
  ((movs.filter (fun m => decide (m.producto_id = pid ∧ m.tipo = TipoMovimiento.ENTRADA))).map
    Movimiento.cantidad).sum

/-- Total quantity of SALIDA movements of a product. -/
def sumSalidas (movs : List Movimiento) (pid : Nat) : Int :=
  ((movs.filter (fun m => decide (m.producto_id = pid ∧ m.tipo = TipoMovimiento.SALIDA))).map
    Movimiento.cantidad).sum

/-- Net balance of the movement log for a product. -/
def saldoMovs (movs : List Movimiento) (pid : Nat) : Int :=
  sumEntradas movs pid - sumSalidas movs pid

/-- Ledger invariant: every product's cached stock equals the sum of its
ENTRADA movements minus the sum of its SALIDA movements (a product without
an Inventario row counts as stock 0). -/
def invariante (db : DB) : Prop :=
  ∀ pid, stockOf db pid = sumEntradas db.movimientos pid - sumSalidas db.movimientos pid

/-- Total quantity of a product across the lines of a sale. -/
def cantidadVendida (ds : List DetalleVenta) (pid : Nat) : Int :=
  ((ds.filter (fun d => d.producto_id == pid)).map DetalleVenta.cantidad).sum

/-- Total quantity of a product across the lines of a purchase. -/
def cantidadComprada (ds : List DetalleCompra) (pid : Nat) : Int :=
  ((ds.filter (fun d => d.producto_id == pid)).map DetalleCompra.cantidad).sum

/-! The operations a caller can invoke against the store, and their
transactional semantics: a raised exception aborts the enclosing
transaction.atomic block, so a failing operation leaves the store as it
was. -/

inductive Op where
  | crearCompraOp (proveedor_id : Nat) (detalles : List DetalleCompraReq) (usuario : Nat)
  | confirmarCompraOp (compra_id usuario : Nat)
  | anularCompraOp (compra_id usuario : Nat) (motivo : String)
  | crearVentaOp (cliente_id : Nat) (detalles : List DetalleVentaReq) (usuario : Nat)
      (estado : EstadoVenta)
  | completarVentaOp (venta_id usuario : Nat)
  | cancelarVentaOp (venta_id usuario : Nat) (motivo : String)
  | ajustarStockOp (producto_id : Nat) (stock_nuevo : Int) (usuario : Nat) (motivo : String)

def opStep : Op → DB → Except Err DB
  | Op.crearCompraOp p ds u, db => crear_compra db p ds u
  | Op.confirmarCompraOp cid u, db => confirmar_compra db cid u
  | Op.anularCompraOp cid u m, db => anular_compra db cid u m
  | Op.crearVentaOp c ds u e, db => crear_venta db c ds u e
  | Op.completarVentaOp vid u, db => completar_venta db vid u
  | Op.cancelarVentaOp vid u m, db => cancelar_venta db vid u m
  | Op.ajustarStockOp pid nuevo u m, db => ajustar_stock db pid nuevo u m

/-- The state after invoking one operation: on success the new store, on a
raised exception the unchanged store (transaction.atomic rollback). -/
def runOp (op : Op) (db : DB) : DB :=
  match opStep op db with
  | Except.ok db1 => db1
  | Except.error _ => db

def runOps (ops : List Op) (db : DB) : DB :=
  ops.foldl (fun d op => runOp op d) db

/-! Write serializers and the sale-creation endpoint
(src/apps/ventas/serializers/write.py, src/apps/ventas/views/api.py). -/

/-- Validation errors of the write serializers; each constructor carries the
data interpolated into the DRF error message. -/
inductive SerErr where
  | productoNoExiste (id : Nat)
  | productoInactivo (nombre : String)
  | cantidadInvalida
  | cantidadDemasiadoGrande
  | sinInventario (producto_id : Nat)
  | stockInsuficiente (disponible solicitado : Int)
  | precioInvalido
  | clienteNoExiste (id : Nat)
  | clienteInactivo (nombre : String)
  | sinDetalles
  | demasiadosDetalles
  | productosDuplicados
deriving DecidableEq, Repr

/-- DetalleVentaWriteSerializer: field validations (producto exists and is
active, cantidad between 1 and 10000) followed by the object-level validate
(inventario exists, stock_actual covers cantidad, resolved price positive). -/
def validarDetalleVentaWrite (db : DB) (d : DetalleVentaReq) : Except SerErr Unit :=
  match findProducto db d.producto_id with
  | none => Except.error (SerErr.productoNoExiste d.producto_id)
  | some p =>
    if p.estado = false then Except.error (SerErr.productoInactivo p.nombre)
    else if d.cantidad < 1 then Except.error SerErr.cantidadInvalida
    else if 10000 < d.cantidad then Except.error SerErr.cantidadDemasiadoGrande
    else
      match findInv db.inventarios d.producto_id with
      | none => Except.error (SerErr.sinInventario d.producto_id)
      | some inv =>
        if inv.stock_actual < d.cantidad then
          Except.error (SerErr.stockInsuficiente inv.stock_actual d.cantidad)
        else if d.precio_unitario.getD p.precio_venta ≤ 0 then
          Except.error SerErr.precioInvalido
        else Except.ok ()

def validarDetallesVentaWrite (db : DB) (ds : List DetalleVentaReq) : Except SerErr Unit :=
  match ds with
  | [] => Except.ok ()
  | d :: resto =>
    match validarDetalleVentaWrite db d with
    | Except.error e => Except.error e
    | Except.ok _ => validarDetallesVentaWrite db resto

/-- Body of POST /api/ventas/: cliente_id, detalles and an optional estado
restricted to PENDIENTE or COMPLETADA (default PENDIENTE). -/
structure VentaCreateReq where
  cliente_id : Nat
  detalles : List DetalleVentaReq
  estado : EstadoVenta
deriving DecidableEq, Repr

/-- VentaCreateSerializer validation: cliente exists and is active, the
detalles list is non-empty, at most 100 lines, no duplicated product, and
every line passes DetalleVentaWriteSerializer. -/
def validarVentaCreate (db : DB) (req : VentaCreateReq) : Except SerErr Unit :=
  match findCliente db req.cliente_id with
  | none => Except.error (SerErr.clienteNoExiste req.cliente_id)
  | some c =>
    if c.estado = false then Except.error (SerErr.clienteInactivo c.nombre)
    else if req.detalles.isEmpty then Except.error SerErr.sinDetalles
    else if 100 < req.detalles.length then Except.error SerErr.demasiadosDetalles
    else if (req.detalles.map DetalleVentaReq.producto_id).Nodup then
      validarDetallesVentaWrite db req.detalles
    else Except.error SerErr.productosDuplicados

inductive ApiErr where
  | validacion (e : SerErr)
  | servicio (e : Err)
deriving DecidableEq, Repr

/-- VentaViewSet.create: serializer.is_valid(raise_exception True) followed
by VentaService.crear_venta with the validated data. -/
def ventaViewSetCreate (db : DB) (req : VentaCreateReq) (usuario : Nat) : Except ApiErr DB :=
  match validarVentaCreate db req with
  | Except.error e => Except.error (ApiErr.validacion e)
  | Except.ok _ =>
    match crear_venta db req.cliente_id req.detalles usuario req.estado with
    | Except.error e => Except.error (ApiErr.servicio e)
    | Except.ok db1 => Except.ok db1

/-! Concrete stores used to evaluate the operations at specific inputs. -/

/-- A fresh store: one active product, one active customer, one active
supplier, no stock rows and no documents yet. -/
def dbEjemplo : DB :=
  { productos := [⟨1, "Martillo", 4, 6, true⟩]
    clientes := [⟨1, "Cliente Uno", true⟩]
    proveedores := [⟨1, "Proveedor Uno", true⟩]
    inventarios := []
    movimientos := []
    compras := []
    ventas := [] }

/-- Product 1 has 3 units on hand; sale 1 is PENDIENTE and asks for 5. -/
def dbC1 : DB :=
  { productos := [⟨1, "Martillo", 4, 6, true⟩]
    clientes := [⟨1, "Cliente Uno", true⟩]
    proveedores := []
    inventarios := [⟨1, 3⟩]
    movimientos := []
    compras := []
    ventas := [⟨1, 1, 7, 30, EstadoVenta.PENDIENTE, [⟨1, 5, 6⟩]⟩] }

/-- Product 1 has 10 units on hand and no documents exist. -/
def dbC3 : DB :=
  { productos := [⟨1, "Martillo", 4, 6, true⟩]
    clientes := [⟨1, "Cliente Uno", true⟩]
    proveedores := []
    inventarios := [⟨1, 10⟩]
    movimientos := []
    compras := []
    ventas := [] }

/-- Purchase 1 is already REALIZADA and sale 1 already COMPLETADA, with 20 on
hand for product 1. -/
def dbC4 : DB :=
  { productos := [⟨1, "Martillo", 4, 6, true⟩]
    clientes := [⟨1, "Cliente Uno", true⟩]
    proveedores := [⟨1, "Proveedor Uno", true⟩]
    inventarios := [⟨1, 20⟩]
    movimientos := []
    compras := [⟨1, 1, 1, 7, 40, none, EstadoCompra.REALIZADA, [⟨1, 10, 4⟩]⟩]
    ventas := [⟨1, 1, 7, 12, EstadoVenta.COMPLETADA, [⟨1, 2, 6⟩]⟩] }

/-- Purchase 1 is already ANULADA and sale 1 already CANCELADA. -/
def dbC5 : DB :=
  { productos := [⟨1, "Martillo", 4, 6, true⟩]
    clientes := [⟨1, "Cliente Uno", true⟩]
    proveedores := [⟨1, "Proveedor Uno", true⟩]
    inventarios := [⟨1, 20⟩]
    movimientos := []
    compras := [⟨1, 1, 1, 7, 40, some "pedido duplicado", EstadoCompra.ANULADA, [⟨1, 10, 4⟩]⟩]
    ventas := [⟨1, 1, 7, 12, EstadoVenta.CANCELADA, [⟨1, 2, 6⟩]⟩] }

/-- Purchase 1 is REALIZADA for 10 units of product 1, but only 4 remain on
hand: voiding it must fail. -/
def dbC6 : DB :=
  { productos := [⟨1, "Martillo", 4, 6, true⟩]
    clientes := []
    proveedores := [⟨1, "Proveedor Uno", true⟩]
    inventarios := [⟨1, 4⟩]
    movimientos := []
    compras := [⟨1, 1, 1, 7, 40, none, EstadoCompra.REALIZADA, [⟨1, 10, 4⟩]⟩]
    ventas := []}

/-- Sale 1 is PENDIENTE for 2 units of product 1 with 4 on hand, and
purchase 1 is PENDIENTE for 10 units. -/
def dbC7 : DB :=
  { productos := [⟨1, "Martillo", 4, 6, true⟩]
    clientes := [⟨1, "Cliente Uno", true⟩]
    proveedores := [⟨1, "Proveedor Uno", true⟩]
    inventarios := [⟨1, 4⟩]
    movimientos := []
    compras := [⟨1, 1, 1, 7, 40, none, EstadoCompra.PENDIENTE, [⟨1, 10, 4⟩]⟩]
    ventas := [⟨1, 1, 7, 12, EstadoVenta.PENDIENTE, [⟨1, 2, 6⟩]⟩] }

/-- The store after completing sale 1 of dbC7. -/
def dbC7A : DB := runOp (Op.completarVentaOp 1 7) dbC7

/-- The store after confirming purchase 1 of dbC7. -/
def dbC7cA : DB := runOp (Op.confirmarCompraOp 1 7) dbC7

/-- The store after confirming and then voiding purchase 1 of dbC7. -/
def dbC7cB : DB := runOp (Op.anularCompraOp 1 8 "pedido duplicado") dbC7cA

/-- The store after completing and then cancelling sale 1 of dbC7. -/
def dbC7vB : DB := runOp (Op.cancelarVentaOp 1 8 "pedido duplicado") dbC7A

/-- Product 1 is inactive (estado false); the supplier is active. -/
def dbC8 : DB :=
  { productos := [⟨1, "Producto Descontinuado", 10, 15, false⟩]
    clientes := []
    proveedores := [⟨1, "Proveedor Uno", true⟩]
    inventarios := []
    movimientos := []
    compras := []
    ventas := [] }

/-- Product 1 has exactly 5 units on hand. -/
def dbC9 : DB :=
  { productos := [⟨1, "Martillo", 4, 6, true⟩]
    clientes := []
    proveedores := []
    inventarios := [⟨1, 5⟩]
    movimientos := []
    compras := []
    ventas := [] }

/-- Product 1 has 3 units on hand; the request below asks for 5. -/
def dbC10 : DB :=
  { productos := [⟨1, "Martillo", 4, 6, true⟩]
    clientes := [⟨1, "Cliente Uno", true⟩]
    proveedores := []
    inventarios := [⟨1, 3⟩]
    movimientos := []
    compras := []
    ventas := [] }

def reqC10 : VentaCreateReq := ⟨1, [⟨1, 5, some 6⟩], EstadoVenta.PENDIENTE⟩

/-- The store after creating (only) a purchase on the fresh store. -/
def dbEjemploCompra : DB := runOp (Op.crearCompraOp 1 [⟨1, 10, some 4⟩] 7) dbEjemplo

/-- The store after creating (only) a PENDIENTE sale on the fresh store. -/
def dbEjemploVenta : DB :=
  runOp (Op.crearVentaOp 1 [⟨1, 2, some 6⟩] 7 EstadoVenta.PENDIENTE) dbEjemplo

/-- The store after the manual adjustment of product 1 from 5 to 2 units. -/
def dbC9a : DB := runOp (Op.ajustarStockOp 1 2 7 "merma detectada") dbC9

/-! Basic lemmas about the table helpers. -/

theorem findInv_setStock (l : List Inventario) (pid pid' : Nat) (v : Int) :
    findInv (setStock l pid v) pid' =
      (findInv l pid').map
        (fun i => if i.producto_id == pid then { i with stock_actual := v } else i) := by
  unfold findInv setStock
  rw [List.find?_map]
  have hcomp :
      ((fun i : Inventario => i.producto_id == pid') ∘
        fun i => if i.producto_id == pid then { i with stock_actual := v } else i) =
      fun i : Inventario => i.producto_id == pid' := by
    funext i
    by_cases h : i.producto_id = pid <;> simp [h]
  rw [hcomp]

theorem stockOf_setStock_self (l : List Inventario) (pid : Nat) (v : Int)
    (inv : Inventario) (h : findInv l pid = some inv) :
    ((findInv (setStock l pid v) pid).map Inventario.stock_actual).getD 0 = v := by
  have hp := List.find?_some h
  simp only [beq_iff_eq] at hp
  simp [findInv_setStock, h, hp]

theorem stockOf_setStock_ne (l : List Inventario) (pid pid' : Nat) (v : Int)
    (h : pid' ≠ pid) :
    ((findInv (setStock l pid v) pid').map Inventario.stock_actual).getD 0 =
      ((findInv l pid').map Inventario.stock_actual).getD 0 := by
  simp only [findInv_setStock]
  cases hf : findInv l pid' with
  | none => simp
  | some i =>
    have hp := List.find?_some hf
    simp only [beq_iff_eq] at hp
    have hne : ¬ i.producto_id = pid := by rw [hp]; exact h
    simp [hne]

theorem findInv_append_nil (l : List Inventario) (pid : Nat) (i : Inventario)
    (h : findInv l pid = none) :
    findInv (l ++ [i]) pid = if i.producto_id == pid then some i else none := by
  unfold findInv at h ⊢
  rw [List.find?_append, h]
  cases hc : i.producto_id == pid <;> simp [List.find?, hc]

theorem getOrCreateInv_fst (l : List Inventario) (pid : Nat) :
    ((getOrCreateInv l pid).1.stock_actual = ((findInv l pid).map Inventario.stock_actual).getD 0)
    ∧ (getOrCreateInv l pid).1.producto_id = pid := by
  unfold getOrCreateInv
  cases h : findInv l pid with
  | none => simp
  | some i =>
    have hp := List.find?_some h
    simp only [beq_iff_eq] at hp
    simp [hp]

theorem findInv_getOrCreateInv_self (l : List Inventario) (pid : Nat) :
    findInv (getOrCreateInv l pid).2 pid = some (getOrCreateInv l pid).1 := by
  unfold getOrCreateInv
  cases h : findInv l pid with
  | none => simp [findInv_append_nil l pid _ h]
  | some i => simpa using h

theorem findInv_getOrCreateInv (l : List Inventario) (pid pid' : Nat) (h : pid' ≠ pid) :
    findInv (getOrCreateInv l pid).2 pid' = findInv l pid' := by
  unfold getOrCreateInv
  cases hf : findInv l pid with
  | some i => simp
  | none =>
    simp only
    unfold findInv
    rw [List.find?_append]
    cases hg : findInv l pid' with
    | some j => unfold findInv at hg; simp [hg]
    | none =>
      unfold findInv at hg
      have hb : (pid == pid') = false := by
        simp only [beq_eq_false_iff_ne, ne_eq]
        exact fun hc => h hc.symm
      simp [hg, List.find?, hb]

theorem findVenta_setVenta (l : List Venta) (vid vid' : Nat) (f : Venta → Venta)
    (hf : ∀ v, (f v).id = v.id) :
    (setVenta l vid f).find? (fun v => v.id == vid') =
      (l.find? (fun v => v.id == vid')).map (fun v => if v.id == vid then f v else v) := by
  unfold setVenta
  rw [List.find?_map]
  have hcomp :
      ((fun v : Venta => v.id == vid') ∘ fun v => if v.id == vid then f v else v) =
      fun v : Venta => v.id == vid' := by
    funext v
    by_cases h : v.id = vid <;> simp [h, hf]
  rw [hcomp]

theorem findCompra_setCompra (l : List Compra) (cid cid' : Nat) (f : Compra → Compra)
    (hf : ∀ c, (f c).id = c.id) :
    (setCompra l cid f).find? (fun c => c.id == cid') =
      (l.find? (fun c => c.id == cid')).map (fun c => if c.id == cid then f c else c) := by
  unfold setCompra
  rw [List.find?_map]
  have hcomp :
      ((fun c : Compra => c.id == cid') ∘ fun c => if c.id == cid then f c else c) =
      fun c : Compra => c.id == cid' := by
    funext c
    by_cases h : c.id = cid <;> simp [h, hf]
  rw [hcomp]

/-! Lemmas about the movement sums. -/

theorem sumEntradas_append (movs : List Movimiento) (m : Movimiento) (pid : Nat) :
    sumEntradas (movs ++ [m]) pid =
      sumEntradas movs pid +
        (if m.producto_id = pid ∧ m.tipo = TipoMovimiento.ENTRADA then m.cantidad else 0) := by
  unfold sumEntradas
  rw [List.filter_append, List.map_append, List.sum_append]
  by_cases h : m.producto_id = pid ∧ m.tipo = TipoMovimiento.ENTRADA <;> simp [h]

theorem sumSalidas_append (movs : List Movimiento) (m : Movimiento) (pid : Nat) :
    sumSalidas (movs ++ [m]) pid =
      sumSalidas movs pid +
        (if m.producto_id = pid ∧ m.tipo = TipoMovimiento.SALIDA then m.cantidad else 0) := by
  unfold sumSalidas
  rw [List.filter_append, List.map_append, List.sum_append]
  by_cases h : m.producto_id = pid ∧ m.tipo = TipoMovimiento.SALIDA <;> simp [h]

theorem saldoMovs_append_entrada (movs : List Movimiento) (pid pid' u : Nat) (c : Int)
    (r : Referencia) :
    saldoMovs (movs ++ [⟨pid, TipoMovimiento.ENTRADA, c, r, u⟩]) pid' =
      saldoMovs movs pid' + (if pid = pid' then c else 0) := by
  unfold saldoMovs
  rw [sumEntradas_append, sumSalidas_append]
  by_cases h : pid = pid'
  · simp [h]
    ring
  · simp [h]

theorem saldoMovs_append_salida (movs : List Movimiento) (pid pid' u : Nat) (c : Int)
    (r : Referencia) :
    saldoMovs (movs ++ [⟨pid, TipoMovimiento.SALIDA, c, r, u⟩]) pid' =
      saldoMovs movs pid' - (if pid = pid' then c else 0) := by
  unfold saldoMovs
  rw [sumEntradas_append, sumSalidas_append]
  by_cases h : pid = pid'
  · simp [h]
    ring
  · simp [h]

theorem saldoMovs_append_entrada_self (movs : List Movimiento) (pid u : Nat) (c : Int)
    (r : Referencia) :
    saldoMovs (movs ++ [⟨pid, TipoMovimiento.ENTRADA, c, r, u⟩]) pid =
      saldoMovs movs pid + c := by
  rw [saldoMovs_append_entrada]
  simp

theorem saldoMovs_append_salida_self (movs : List Movimiento) (pid u : Nat) (c : Int)
    (r : Referencia) :
    saldoMovs (movs ++ [⟨pid, TipoMovimiento.SALIDA, c, r, u⟩]) pid =
      saldoMovs movs pid - c := by
  rw [saldoMovs_append_salida]
  simp

theorem saldoMovs_append_entrada_ne (movs : List Movimiento) (pid pid' u : Nat) (c : Int)
    (r : Referencia) (h : pid ≠ pid') :
    saldoMovs (movs ++ [⟨pid, TipoMovimiento.ENTRADA, c, r, u⟩]) pid' =
      saldoMovs movs pid' := by
  rw [saldoMovs_append_entrada]
  simp [h]

theorem saldoMovs_append_salida_ne (movs : List Movimiento) (pid pid' u : Nat) (c : Int)
    (r : Referencia) (h : pid ≠ pid') :
    saldoMovs (movs ++ [⟨pid, TipoMovimiento.SALIDA, c, r, u⟩]) pid' =
      saldoMovs movs pid' := by
  rw [saldoMovs_append_salida]
  simp [h]

theorem cantidadVendida_cons (d : DetalleVenta) (ds : List DetalleVenta) (pid : Nat) :
    cantidadVendida (d :: ds) pid =
      (if d.producto_id = pid then d.cantidad else 0) + cantidadVendida ds pid := by
  unfold cantidadVendida
  by_cases h : d.producto_id = pid <;> simp [List.filter_cons, h]

theorem cantidadComprada_cons (d : DetalleCompra) (ds : List DetalleCompra) (pid : Nat) :
    cantidadComprada (d :: ds) pid =
      (if d.producto_id = pid then d.cantidad else 0) + cantidadComprada ds pid := by
  unfold cantidadComprada
  by_cases h : d.producto_id = pid <;> simp [List.filter_cons, h]

/-! Effect of the per-line stock loops on the cached stock and on the
movement balance. -/

theorem aplicarSalidaVenta_efecto (vid u : Nat) :
    ∀ (ds : List DetalleVenta) (db db' : DB),
      aplicarSalidaVenta vid u ds db = Except.ok db' →
      (∀ pid, stockOf db' pid = stockOf db pid - cantidadVendida ds pid) ∧
      (∀ pid, saldoMovs db'.movimientos pid = saldoMovs db.movimientos pid - cantidadVendida ds pid) ∧
      db'.ventas = db.ventas ∧ db'.compras = db.compras ∧ db'.productos = db.productos := by
  intro ds
  induction ds with
  | nil =>
    intro db db' h
    unfold aplicarSalidaVenta at h
    simp only [Except.ok.injEq] at h
    subst h
    simp [cantidadVendida]
  | cons d resto ih =>
    intro db db' h
    unfold aplicarSalidaVenta at h
    cases hf : findInv db.inventarios d.producto_id with
    | none => rw [hf] at h; simp at h
    | some inv =>
      rw [hf] at h
      obtain ⟨h1, h2, h3, h4, h5⟩ := ih _ _ h
      refine ⟨fun pid => ?_, fun pid => ?_, h3, h4, h5⟩
      · rw [h1 pid, cantidadVendida_cons]
        by_cases hp : d.producto_id = pid
        · subst hp
          have hself := stockOf_setStock_self db.inventarios d.producto_id
            (inv.stock_actual - d.cantidad) inv hf
          simp only [stockOf] at *
          simp only [hself]
          have : ((findInv db.inventarios d.producto_id).map Inventario.stock_actual).getD 0 =
              inv.stock_actual := by rw [hf]; rfl
          rw [this]
          simp
          ring
        · have hne := stockOf_setStock_ne db.inventarios d.producto_id pid
            (inv.stock_actual - d.cantidad) (fun hc => hp hc.symm)
          simp only [stockOf] at *
          simp only [hne, hp, if_false]
          ring
      · rw [h2 pid, cantidadVendida_cons]
        have := saldoMovs_append_salida db.movimientos d.producto_id pid u d.cantidad
          (Referencia.venta vid)
        simp only [this]
        by_cases hp : d.producto_id = pid
        · simp [hp]
          ring
        · simp [hp]

theorem devolverEntradaVenta_efecto (vid u : Nat) (motivo : String) :
    ∀ (ds : List DetalleVenta) (db db' : DB),
      devolverEntradaVenta vid u motivo ds db = Except.ok db' →
      (∀ pid, stockOf db' pid = stockOf db pid + cantidadVendida ds pid) ∧
      (∀ pid, saldoMovs db'.movimientos pid = saldoMovs db.movimientos pid + cantidadVendida ds pid) ∧
      db'.ventas = db.ventas ∧ db'.compras = db.compras ∧ db'.productos = db.productos := by
  intro ds
  induction ds with
  | nil =>
    intro db db' h
    unfold devolverEntradaVenta at h
    simp only [Except.ok.injEq] at h
    subst h
    simp [cantidadVendida]
  | cons d resto ih =>
    intro db db' h
    unfold devolverEntradaVenta at h
    cases hf : findInv db.inventarios d.producto_id with
    | none => rw [hf] at h; simp at h
    | some inv =>
      rw [hf] at h
      obtain ⟨h1, h2, h3, h4, h5⟩ := ih _ _ h
      refine ⟨fun pid => ?_, fun pid => ?_, h3, h4, h5⟩
      · rw [h1 pid, cantidadVendida_cons]
        by_cases hp : d.producto_id = pid
        · subst hp
          have hself := stockOf_setStock_self db.inventarios d.producto_id
            (inv.stock_actual + d.cantidad) inv hf
          simp only [stockOf] at *
          simp only [hself]
          have : ((findInv db.inventarios d.producto_id).map Inventario.stock_actual).getD 0 =
              inv.stock_actual := by rw [hf]; rfl
          rw [this]
          simp
          ring
        · have hne := stockOf_setStock_ne db.inventarios d.producto_id pid
            (inv.stock_actual + d.cantidad) (fun hc => hp hc.symm)
          simp only [stockOf] at *
          simp only [hne, hp, if_false]
          ring
      · rw [h2 pid, cantidadVendida_cons]
        have := saldoMovs_append_entrada db.movimientos d.producto_id pid u d.cantidad
          (Referencia.cancelacionVenta vid motivo)
        simp only [this]
        by_cases hp : d.producto_id = pid
        · simp [hp]
          ring
        · simp [hp]

theorem revertirSalidaCompra_efecto (n : Nat) (motivo : String) (u : Nat) :
    ∀ (ds : List DetalleCompra) (db db' : DB),
      revertirSalidaCompra n motivo u ds db = Except.ok db' →
      (∀ pid, stockOf db' pid = stockOf db pid - cantidadComprada ds pid) ∧
      (∀ pid, saldoMovs db'.movimientos pid = saldoMovs db.movimientos pid - cantidadComprada ds pid) ∧
      db'.ventas = db.ventas ∧ db'.compras = db.compras ∧ db'.productos = db.productos := by
  intro ds
  induction ds with
  | nil =>
    intro db db' h
    unfold revertirSalidaCompra at h
    simp only [Except.ok.injEq] at h
    subst h
    simp [cantidadComprada]
  | cons d resto ih =>
    intro db db' h
    unfold revertirSalidaCompra at h
    cases hf : findInv db.inventarios d.producto_id with
    | none => rw [hf] at h; simp at h
    | some inv =>
      rw [hf] at h
      obtain ⟨h1, h2, h3, h4, h5⟩ := ih _ _ h
      refine ⟨fun pid => ?_, fun pid => ?_, h3, h4, h5⟩
      · rw [h1 pid, cantidadComprada_cons]
        by_cases hp : d.producto_id = pid
        · subst hp
          have hself := stockOf_setStock_self db.inventarios d.producto_id
            (inv.stock_actual - d.cantidad) inv hf
          simp only [stockOf] at *
          simp only [hself]
          have : ((findInv db.inventarios d.producto_id).map Inventario.stock_actual).getD 0 =
              inv.stock_actual := by rw [hf]; rfl
          rw [this]
          simp
          ring
        · have hne := stockOf_setStock_ne db.inventarios d.producto_id pid
            (inv.stock_actual - d.cantidad) (fun hc => hp hc.symm)
          simp only [stockOf] at *
          simp only [hne, hp, if_false]
          ring
      · rw [h2 pid, cantidadComprada_cons]
        have := saldoMovs_append_salida db.movimientos d.producto_id pid u d.cantidad
          (Referencia.anulacionCompra n motivo)
        simp only [this]
        by_cases hp : d.producto_id = pid
        · simp [hp]
          ring
        · simp [hp]

theorem aplicarEntradaCompra_efecto (n u : Nat) :
    ∀ (ds : List DetalleCompra) (db : DB),
      (∀ pid, stockOf (aplicarEntradaCompra n u ds db) pid =
        stockOf db pid + cantidadComprada ds pid) ∧
      (∀ pid, saldoMovs (aplicarEntradaCompra n u ds db).movimientos pid =
        saldoMovs db.movimientos pid + cantidadComprada ds pid) ∧
      (aplicarEntradaCompra n u ds db).ventas = db.ventas ∧
      (aplicarEntradaCompra n u ds db).compras = db.compras ∧
      (aplicarEntradaCompra n u ds db).productos = db.productos := by
  intro ds
  induction ds with
  | nil =>
    intro db
    unfold aplicarEntradaCompra
    simp [cantidadComprada]
  | cons d resto ih =>
    intro db
    unfold aplicarEntradaCompra
    obtain ⟨h1, h2, h3, h4, h5⟩ := ih
      { db with
        inventarios := setStock (getOrCreateInv db.inventarios d.producto_id).2 d.producto_id
          ((getOrCreateInv db.inventarios d.producto_id).1.stock_actual + d.cantidad),
        movimientos := db.movimientos ++
          [⟨d.producto_id, TipoMovimiento.ENTRADA, d.cantidad,
            Referencia.confirmacionCompra n, u⟩] }
    refine ⟨fun pid => ?_, fun pid => ?_, h3, h4, h5⟩
    · rw [h1 pid, cantidadComprada_cons]
      by_cases hp : d.producto_id = pid
      · subst hp
        have hself := stockOf_setStock_self (getOrCreateInv db.inventarios d.producto_id).2
          d.producto_id ((getOrCreateInv db.inventarios d.producto_id).1.stock_actual + d.cantidad)
          (getOrCreateInv db.inventarios d.producto_id).1
          (findInv_getOrCreateInv_self db.inventarios d.producto_id)
        have hfst := (getOrCreateInv_fst db.inventarios d.producto_id).1
        simp only [stockOf] at *
        rw [hself, hfst]
        simp only [if_true]
        omega
      · have hne := stockOf_setStock_ne (getOrCreateInv db.inventarios d.producto_id).2
          d.producto_id pid
          ((getOrCreateInv db.inventarios d.producto_id).1.stock_actual + d.cantidad)
          (fun hc => hp hc.symm)
        have hninv := findInv_getOrCreateInv db.inventarios d.producto_id pid
          (fun hc => hp hc.symm)
        simp only [stockOf] at *
        simp only [hne, hninv, hp, if_false]
        ring
    · rw [h2 pid, cantidadComprada_cons]
      have := saldoMovs_append_entrada db.movimientos d.producto_id pid u d.cantidad
        (Referencia.confirmacionCompra n)
      simp only [this]
      by_cases hp : d.producto_id = pid
      · simp [hp]
        ring
      · simp [hp]

/-! Inversion lemmas: what a successful operation did to the store. -/

theorem completar_venta_ok {db dbA : DB} {vid u : Nat}
    (h : completar_venta db vid u = Except.ok dbA) :
    ∃ venta db1, findVenta db vid = some venta ∧ venta.estado = EstadoVenta.PENDIENTE ∧
      aplicarSalidaVenta vid u venta.detalles db = Except.ok db1 ∧
      dbA = { db1 with
        ventas := setVenta db1.ventas vid
          (fun v => { v with estado := EstadoVenta.COMPLETADA }) } := by
  unfold completar_venta at h
  split at h
  · simp at h
  · rename_i venta hv
    split at h
    · simp at h
    · rename_i hne
      split at h
      · simp at h
      · rename_i db1 hs
        simp only [Except.ok.injEq] at h
        refine ⟨venta, db1, hv, ?_, hs, h.symm⟩
        by_contra hcon
        exact hne hcon

theorem cancelar_venta_ok {db dbB : DB} {vid u : Nat} {motivo : String}
    (h : cancelar_venta db vid u motivo = Except.ok dbB) :
    ∃ venta db1, findVenta db vid = some venta ∧ venta.estado ≠ EstadoVenta.CANCELADA ∧
      ((venta.estado = EstadoVenta.COMPLETADA ∧
          devolverEntradaVenta vid u motivo venta.detalles db = Except.ok db1) ∨
        (venta.estado ≠ EstadoVenta.COMPLETADA ∧ db1 = db)) ∧
      dbB = { db1 with
        ventas := setVenta db1.ventas vid
          (fun v => { v with estado := EstadoVenta.CANCELADA }) } := by
  unfold cancelar_venta at h
  split at h
  · simp at h
  · rename_i venta hv
    split at h
    · simp at h
    · rename_i hnc
      split at h
      · rename_i hcom
        split at h
        · simp at h
        · rename_i db1 hs
          simp only [Except.ok.injEq] at h
          exact ⟨venta, db1, hv, hnc, Or.inl ⟨hcom, hs⟩, h.symm⟩
      · rename_i hncom
        simp only [Except.ok.injEq] at h
        exact ⟨venta, db, hv, hnc, Or.inr ⟨hncom, rfl⟩, h.symm⟩

theorem crear_venta_ok {db db' : DB} {cid u : Nat} {detalles : List DetalleVentaReq}
    {estado : EstadoVenta} (h : crear_venta db cid detalles u estado = Except.ok db') :
    ∃ ds, (findCliente db cid).isSome ∧ resolverDetallesVenta db detalles = Except.ok ds ∧
      ((estado = EstadoVenta.COMPLETADA ∧
          aplicarSalidaVenta (db.ventas.length + 1) u ds
            { db with ventas := db.ventas ++
                [⟨db.ventas.length + 1, cid, u, totalVenta ds, estado, ds⟩] } = Except.ok db') ∨
        (estado ≠ EstadoVenta.COMPLETADA ∧
          db' = { db with ventas := db.ventas ++
            [⟨db.ventas.length + 1, cid, u, totalVenta ds, estado, ds⟩] })) := by
  unfold crear_venta at h
  split at h
  · simp at h
  · rename_i cliente hcli
    split at h
    · simp at h
    · rename_i ds hds
      split at h
      · rename_i hcom
        exact ⟨ds, by simp [hcli], hds, Or.inl ⟨hcom, h⟩⟩
      · rename_i hncom
        simp only [Except.ok.injEq] at h
        exact ⟨ds, by simp [hcli], hds, Or.inr ⟨hncom, h.symm⟩⟩

theorem confirmar_compra_ok {db db' : DB} {cid u : Nat}
    (h : confirmar_compra db cid u = Except.ok db') :
    ∃ compra, findCompra db cid = some compra ∧ compra.estado = EstadoCompra.PENDIENTE ∧
      db' = { aplicarEntradaCompra compra.numero u compra.detalles db with
        compras := setCompra (aplicarEntradaCompra compra.numero u compra.detalles db).compras
          cid (fun c => { c with estado := EstadoCompra.REALIZADA }) } := by
  unfold confirmar_compra at h
  split at h
  · simp at h
  · rename_i compra hc
    split at h
    · simp at h
    · rename_i hne
      simp only [Except.ok.injEq] at h
      refine ⟨compra, hc, ?_, h.symm⟩
      by_contra hcon
      exact hne hcon

theorem anular_compra_ok {db dbB : DB} {cid u : Nat} {motivo : String}
    (h : anular_compra db cid u motivo = Except.ok dbB) :
    ∃ compra db1, findCompra db cid = some compra ∧ compra.estado ≠ EstadoCompra.ANULADA ∧
      ((compra.estado = EstadoCompra.REALIZADA ∧
          validarStockAnulacion db compra.detalles = Except.ok () ∧
          revertirSalidaCompra compra.numero motivo u compra.detalles db = Except.ok db1) ∨
        (compra.estado ≠ EstadoCompra.REALIZADA ∧ db1 = db)) ∧
      dbB = { db1 with
        compras := setCompra db1.compras cid
          (fun c =>
            { c with estado := EstadoCompra.ANULADA, motivo_anulacion := some motivo }) } := by
  unfold anular_compra at h
  split at h
  · simp at h
  · rename_i compra hc
    split at h
    · simp at h
    · rename_i hna
      split at h
      · rename_i hre
        split at h
        · simp at h
        · rename_i unidad hval
          split at h
          · simp at h
          · rename_i db1 hs
            simp only [Except.ok.injEq] at h
            exact ⟨compra, db1, hc, hna, Or.inl ⟨hre, by simpa using hval, hs⟩, h.symm⟩
      · rename_i hnre
        simp only [Except.ok.injEq] at h
        exact ⟨compra, db, hc, hna, Or.inr ⟨hnre, rfl⟩, h.symm⟩

theorem crear_compra_ok {db db' : DB} {pid u : Nat} {detalles : List DetalleCompraReq}
    (h : crear_compra db pid detalles u = Except.ok db') :
    ∃ ds, validarDetallesCompra db detalles = Except.ok ds ∧
      db' = { db with compras := db.compras ++
        [⟨db.compras.length + 1, numeroCompraSiguiente db, pid, u, totalCompra ds, none,
          EstadoCompra.PENDIENTE, ds⟩] } := by
  unfold crear_compra at h
  split at h
  · simp at h
  · rename_i prov hp
    split at h
    · simp at h
    · split at h
      · simp at h
      · split at h
        · simp at h
        · rename_i ds hds
          split at h
          · simp at h
          · simp only [Except.ok.injEq] at h
            exact ⟨ds, hds, h.symm⟩

theorem ajustar_stock_ok {db db' : DB} {pid : Nat} {nuevo : Int} {u : Nat} {motivo : String}
    (h : ajustar_stock db pid nuevo u motivo = Except.ok db') :
    (findProducto db pid).isSome ∧
      db' = { db with
        inventarios := setStock (getOrCreateInv db.inventarios pid).2 pid nuevo,
        movimientos := db.movimientos ++
          [⟨pid,
            (if 0 < nuevo - (getOrCreateInv db.inventarios pid).1.stock_actual then
              TipoMovimiento.ENTRADA else TipoMovimiento.SALIDA),
            |nuevo - (getOrCreateInv db.inventarios pid).1.stock_actual|,
            Referencia.ajuste motivo, u⟩] } := by
  unfold ajustar_stock at h
  split at h
  · simp at h
  · rename_i p hp
    simp only [Except.ok.injEq] at h
    exact ⟨by simp [hp], h.symm⟩

/-! Preservation of the ledger invariant by every operation. -/

theorem invariante_componentes {db db' : DB}
    (hinv : db'.inventarios = db.inventarios) (hmov : db'.movimientos = db.movimientos)
    (h : invariante db) : invariante db' := by
  intro pid
  unfold invariante at h
  simp only [stockOf, hinv, hmov]
  exact h pid

theorem crear_compra_invariante {db db' : DB} {pid u : Nat} {detalles : List DetalleCompraReq}
    (h : crear_compra db pid detalles u = Except.ok db') (hi : invariante db) :
    invariante db' := by
  obtain ⟨ds, _, hdb⟩ := crear_compra_ok h
  subst hdb
  exact invariante_componentes rfl rfl hi

theorem crear_venta_invariante {db db' : DB} {cid u : Nat} {detalles : List DetalleVentaReq}
    {estado : EstadoVenta} (h : crear_venta db cid detalles u estado = Except.ok db')
    (hi : invariante db) : invariante db' := by
  obtain ⟨ds, _, _, hcase⟩ := crear_venta_ok h
  rcases hcase with ⟨he, happ⟩ | ⟨hne, hdb⟩
  · have hi2 : invariante
        { db with ventas := db.ventas ++
            [⟨db.ventas.length + 1, cid, u, totalVenta ds, estado, ds⟩] } :=
      invariante_componentes rfl rfl hi
    obtain ⟨h1, h2, _, _, _⟩ := aplicarSalidaVenta_efecto (db.ventas.length + 1) u ds _ _ happ
    intro pid
    have ha := h1 pid
    have hb := h2 pid
    have hc := hi2 pid
    unfold invariante at *
    simp only [saldoMovs] at hb
    dsimp only at *
    omega
  · subst hdb
    exact invariante_componentes rfl rfl hi

theorem completar_venta_invariante {db db' : DB} {vid u : Nat}
    (h : completar_venta db vid u = Except.ok db') (hi : invariante db) : invariante db' := by
  obtain ⟨venta, db1, _, _, hs, hdb⟩ := completar_venta_ok h
  obtain ⟨h1, h2, _, _, _⟩ := aplicarSalidaVenta_efecto vid u venta.detalles _ _ hs
  have hi1 : invariante db1 := by
    intro pid
    have ha := h1 pid
    have hb := h2 pid
    have hc := hi pid
    simp only [saldoMovs] at hb
    omega
  subst hdb
  exact invariante_componentes rfl rfl hi1

theorem cancelar_venta_invariante {db db' : DB} {vid u : Nat} {motivo : String}
    (h : cancelar_venta db vid u motivo = Except.ok db') (hi : invariante db) : invariante db' := by
  obtain ⟨venta, db1, _, _, hcase, hdb⟩ := cancelar_venta_ok h
  have hi1 : invariante db1 := by
    rcases hcase with ⟨_, hs⟩ | ⟨_, hdb1⟩
    · obtain ⟨h1, h2, _, _, _⟩ := devolverEntradaVenta_efecto vid u motivo venta.detalles _ _ hs
      intro pid
      have ha := h1 pid
      have hb := h2 pid
      have hc := hi pid
      simp only [saldoMovs] at hb
      omega
    · subst hdb1
      exact hi
  subst hdb
  exact invariante_componentes rfl rfl hi1

theorem confirmar_compra_invariante {db db' : DB} {cid u : Nat}
    (h : confirmar_compra db cid u = Except.ok db') (hi : invariante db) : invariante db' := by
  obtain ⟨compra, _, _, hdb⟩ := confirmar_compra_ok h
  obtain ⟨h1, h2, _, _, _⟩ := aplicarEntradaCompra_efecto compra.numero u compra.detalles db
  have hiA : invariante (aplicarEntradaCompra compra.numero u compra.detalles db) := by
    intro pid
    have ha := h1 pid
    have hb := h2 pid
    have hc := hi pid
    simp only [saldoMovs] at hb
    omega
  subst hdb
  exact invariante_componentes rfl rfl hiA

theorem anular_compra_invariante {db db' : DB} {cid u : Nat} {motivo : String}
    (h : anular_compra db cid u motivo = Except.ok db') (hi : invariante db) : invariante db' := by
  obtain ⟨compra, db1, _, _, hcase, hdb⟩ := anular_compra_ok h
  have hi1 : invariante db1 := by
    rcases hcase with ⟨_, _, hs⟩ | ⟨_, hdb1⟩
    · obtain ⟨h1, h2, _, _, _⟩ :=
        revertirSalidaCompra_efecto compra.numero motivo u compra.detalles _ _ hs
      intro pid
      have ha := h1 pid
      have hb := h2 pid
      have hc := hi pid
      simp only [saldoMovs] at hb
      omega
    · subst hdb1
      exact hi
  subst hdb
  exact invariante_componentes rfl rfl hi1

theorem ajustar_stock_invariante {db db' : DB} {pid : Nat} {nuevo : Int} {u : Nat}
    {motivo : String} (h : ajustar_stock db pid nuevo u motivo = Except.ok db')
    (hi : invariante db) : invariante db' := by
  obtain ⟨_, hdb⟩ := ajustar_stock_ok h
  subst hdb
  intro pid'
  have hfst := (getOrCreateInv_fst db.inventarios pid).1
  have hself := stockOf_setStock_self (getOrCreateInv db.inventarios pid).2 pid nuevo
    (getOrCreateInv db.inventarios pid).1 (findInv_getOrCreateInv_self db.inventarios pid)
  by_cases hdif : 0 < nuevo - (getOrCreateInv db.inventarios pid).1.stock_actual
  · have habs : |nuevo - (getOrCreateInv db.inventarios pid).1.stock_actual| =
        nuevo - (getOrCreateInv db.inventarios pid).1.stock_actual := abs_of_pos hdif
    by_cases hp : pid = pid'
    · subst hp
      have hsal := saldoMovs_append_entrada_self db.movimientos pid u
        (nuevo - (getOrCreateInv db.inventarios pid).1.stock_actual) (Referencia.ajuste motivo)
      have hc := hi pid
      simp only [saldoMovs] at hsal
      simp only [invariante, stockOf] at *
      rw [if_pos hdif, habs, hself, hsal]
      omega
    · have hne := stockOf_setStock_ne (getOrCreateInv db.inventarios pid).2 pid pid' nuevo
        (fun hcon => hp hcon.symm)
      have hninv := findInv_getOrCreateInv db.inventarios pid pid' (fun hcon => hp hcon.symm)
      have hsal := saldoMovs_append_entrada_ne db.movimientos pid pid' u
        (nuevo - (getOrCreateInv db.inventarios pid).1.stock_actual) (Referencia.ajuste motivo) hp
      have hc := hi pid'
      simp only [saldoMovs] at hsal
      simp only [invariante, stockOf] at *
      rw [if_pos hdif, habs, hne, hninv, hsal]
      omega
  · have habs : |nuevo - (getOrCreateInv db.inventarios pid).1.stock_actual| =
        -(nuevo - (getOrCreateInv db.inventarios pid).1.stock_actual) := by
      rw [abs_of_nonpos]
      omega
    by_cases hp : pid = pid'
    · subst hp
      have hsal := saldoMovs_append_salida_self db.movimientos pid u
        (-(nuevo - (getOrCreateInv db.inventarios pid).1.stock_actual)) (Referencia.ajuste motivo)
      have hc := hi pid
      simp only [saldoMovs] at hsal
      simp only [invariante, stockOf] at *
      rw [if_neg hdif, habs, hself, hsal]
      omega
    · have hne := stockOf_setStock_ne (getOrCreateInv db.inventarios pid).2 pid pid' nuevo
        (fun hcon => hp hcon.symm)
      have hninv := findInv_getOrCreateInv db.inventarios pid pid' (fun hcon => hp hcon.symm)
      have hsal := saldoMovs_append_salida_ne db.movimientos pid pid' u
        (-(nuevo - (getOrCreateInv db.inventarios pid).1.stock_actual)) (Referencia.ajuste motivo) hp
      have hc := hi pid'
      simp only [saldoMovs] at hsal
      simp only [invariante, stockOf] at *
      rw [if_neg hdif, habs, hne, hninv, hsal]
      omega

theorem runOp_invariante (op : Op) (db : DB) (hi : invariante db) :
    invariante (runOp op db) := by
  unfold runOp
  cases hs : opStep op db with
  | error e => exact hi
  | ok db1 =>
    cases op with
    | crearCompraOp p ds u => exact crear_compra_invariante hs hi
    | confirmarCompraOp cid u => exact confirmar_compra_invariante hs hi
    | anularCompraOp cid u m => exact anular_compra_invariante hs hi
    | crearVentaOp c ds u e => exact crear_venta_invariante hs hi
    | completarVentaOp vid u => exact completar_venta_invariante hs hi
    | cancelarVentaOp vid u m => exact cancelar_venta_invariante hs hi
    | ajustarStockOp pid nuevo u m => exact ajustar_stock_invariante hs hi

theorem findCompra_setCompra_encontrada {l : List Compra} {cid : Nat} {compra : Compra}
    (h : l.find? (fun c => c.id == cid) = some compra) (f : Compra → Compra)
    (hf : ∀ c, (f c).id = c.id) :
    (setCompra l cid f).find? (fun c => c.id == cid) = some (f compra) := by
  rw [findCompra_setCompra l cid cid f hf, h]
  have hp := List.find?_some h
  simp only [beq_iff_eq] at hp
  simp [hp]

theorem findVenta_setVenta_encontrada {l : List Venta} {vid : Nat} {venta : Venta}
    (h : l.find? (fun v => v.id == vid) = some venta) (f : Venta → Venta)
    (hf : ∀ v, (f v).id = v.id) :
    (setVenta l vid f).find? (fun v => v.id == vid) = some (f venta) := by
  rw [findVenta_setVenta l vid vid f hf, h]
  have hp := List.find?_some h
  simp only [beq_iff_eq] at hp
  simp [hp]

/-- The validation pass of anular_compra fails with the insufficiency error
whenever some line exceeds its product's stock (and every line has an
Inventario row). -/
theorem validarStockAnulacion_falla (db : DB) :
    ∀ (ds : List DetalleCompra) (d : DetalleCompra) (inv : Inventario),
      d ∈ ds →
      (∀ d' ∈ ds, (findInv db.inventarios d'.producto_id).isSome) →
      findInv db.inventarios d.producto_id = some inv →
      inv.stock_actual < d.cantidad →
      ∃ nombre requerido disponible,
        validarStockAnulacion db ds =
          Except.error (Err.stockInsuficienteParaAnular nombre requerido disponible) ∧
        disponible < requerido := by
  intro ds
  induction ds with
  | nil =>
    intro d inv hmem
    simp at hmem
  | cons d0 resto ih =>
    intro d inv hmem hall hfind hlt
    cases h0 : findInv db.inventarios d0.producto_id with
    | none =>
      exfalso
      have := hall d0 (by simp)
      rw [h0] at this
      simp at this
    | some inv0 =>
      by_cases hl0 : inv0.stock_actual < d0.cantidad
      · refine ⟨nombreProducto db d0.producto_id, d0.cantidad, inv0.stock_actual, ?_, hl0⟩
        unfold validarStockAnulacion
        rw [h0]
        simp [hl0]
      · have hd : d ∈ resto := by
          rcases List.mem_cons.mp hmem with hd0 | hres
          · exfalso
            subst hd0
            rw [hfind] at h0
            injection h0 with h0
            subst h0
            exact hl0 hlt
          · exact hres
        obtain ⟨n, r, dis, hv, hdr⟩ :=
          ih d inv hd (fun d' hd' => hall d' (List.mem_cons_of_mem d0 hd')) hfind hlt
        refine ⟨n, r, dis, ?_, hdr⟩
        unfold validarStockAnulacion
        rw [h0]
        simp [hl0, hv]

/-- DetalleVentaWriteSerializer rejects any line whose quantity exceeds the
product's current stock (with one validation error or another). -/
theorem validarDetalleVentaWrite_falla (db : DB) (d : DetalleVentaReq)
    (h : stockOf db d.producto_id < d.cantidad) :
    ∃ e, validarDetalleVentaWrite db d = Except.error e := by
  unfold validarDetalleVentaWrite
  cases hp : findProducto db d.producto_id with
  | none => exact ⟨_, rfl⟩
  | some p =>
    by_cases hact : p.estado = false
    · simp [hact]
    · simp only [hact, if_false]
      by_cases hc1 : d.cantidad < 1
      · simp [hc1]
      · simp only [hc1, if_false]
        by_cases hc2 : 10000 < d.cantidad
        · simp [hc2]
        · simp only [hc2, if_false]
          cases hinv : findInv db.inventarios d.producto_id with
          | none => exact ⟨_, rfl⟩
          | some inv =>
            have hlt : inv.stock_actual < d.cantidad := by
              unfold stockOf at h
              rw [hinv] at h
              exact h
            simp [hlt]

theorem validarDetallesVentaWrite_mem (db : DB) :
    ∀ (ds : List DetalleVentaReq) (d : DetalleVentaReq),
      d ∈ ds → (∃ e, validarDetalleVentaWrite db d = Except.error e) →
      ∃ e, validarDetallesVentaWrite db ds = Except.error e := by
  intro ds
  induction ds with
  | nil =>
    intro d hmem
    simp at hmem
  | cons d0 resto ih =>
    intro d hmem ⟨e, he⟩
    unfold validarDetallesVentaWrite
    cases h0 : validarDetalleVentaWrite db d0 with
    | error e0 => exact ⟨e0, rfl⟩
    | ok unidad =>
      rcases List.mem_cons.mp hmem with hd0 | hres
      · exfalso
        subst hd0
        rw [he] at h0
        simp at h0
      · exact ih d hres ⟨e, he⟩

/-- The whole create-serializer validation fails whenever some line's
quantity exceeds its product's current stock. -/
theorem validarVentaCreate_falla (db : DB) (req : VentaCreateReq) (d : DetalleVentaReq)
    (hmem : d ∈ req.detalles) (h : stockOf db d.producto_id < d.cantidad) :
    ∃ e, validarVentaCreate db req = Except.error e := by
  unfold validarVentaCreate
  cases hcli : findCliente db req.cliente_id with
  | none => exact ⟨_, rfl⟩
  | some c =>
    by_cases hact : c.estado = false
    · simp [hact]
    · simp only [hact, if_false]
      by_cases hemp : req.detalles.isEmpty
      · simp [hemp]
      · simp only [hemp, if_false]
        by_cases hlen : 100 < req.detalles.length
        · simp [hlen]
        · simp only [hlen, if_false]
          by_cases hdup : (req.detalles.map DetalleVentaReq.producto_id).Nodup
          · simp only [hdup, if_true]
            exact validarDetallesVentaWrite_mem db req.detalles d hmem
              (validarDetalleVentaWrite_falla db d h)
          · simp [hdup]

/-! Claim theorems. -/

/-- C1: the spec requires completar_venta to fail with an insufficient-stock
error naming product, required and available quantities and to apply no
movement when a line exceeds the on-hand stock.  The code performs no stock
check at all: on a PENDIENTE sale of 5 units of a product with 3 on hand it
succeeds, drives the cached stock to -2, records the SALIDA movement of 5
and marks the sale COMPLETADA. -/
theorem erp_c1_completar_sin_chequeo_de_stock :
    stockOf dbC1 1 = 3 ∧
    (completar_venta dbC1 1 7).map
      (fun db => (stockOf db 1, db.movimientos.map (fun m => (m.tipo, m.cantidad)),
        (findVenta db 1).map Venta.estado)) =
    Except.ok (-2, [(TipoMovimiento.SALIDA, 5)], some EstadoVenta.COMPLETADA) := by
  decide

/-- C2: starting from any store satisfying the ledger invariant, after any
sequence of purchase and sale create/confirm/cancel operations and manual
stock adjustments, every product's cached Inventario.stock_actual still
equals the sum of its ENTRADA movement quantities minus the sum of its
SALIDA movement quantities. -/
theorem erp_c2_stock_igual_saldo_movimientos (ops : List Op) (db : DB)
    (h : invariante db) : invariante (runOps ops db) := by
  induction ops generalizing db with
  | nil => exact h
  | cons op resto ih => exact ih (runOp op db) (runOp_invariante op db h)

/-- Witness for C2: a concrete run of all seven operations from the fresh
store keeps the invariant. -/
theorem erp_c2_stock_igual_saldo_movimientos_witness :
    invariante (runOps
      [Op.crearCompraOp 1 [⟨1, 10, some 4⟩] 7, Op.confirmarCompraOp 1 7,
        Op.crearVentaOp 1 [⟨1, 3, some 6⟩] 7 EstadoVenta.PENDIENTE, Op.completarVentaOp 1 7,
        Op.ajustarStockOp 1 20 7 "recuento", Op.cancelarVentaOp 1 8 "devolución del cliente",
        Op.anularCompraOp 1 8 "pedido duplicado"] dbEjemplo) :=
  erp_c2_stock_igual_saldo_movimientos _ dbEjemplo (by
    intro pid
    simp [invariante, stockOf, findInv, dbEjemplo, sumEntradas, sumSalidas])

/-- C3 counterexample: crear_venta accepts estado COMPLETADA, in which case
the sale is created already COMPLETADA and the creation itself reduces the
stock from 10 to 6 and records a SALIDA movement, contradicting the claim
that every creation yields a PENDING document with no stock effect. -/
theorem erp_c3_contraejemplo :
    stockOf dbC3 1 = 10 ∧
    (crear_venta dbC3 1 [⟨1, 4, some 6⟩] 7 EstadoVenta.COMPLETADA).map
      (fun db => ((findVenta db 1).map Venta.estado, stockOf db 1,
        db.movimientos.map (fun m => (m.tipo, m.cantidad)))) =
    Except.ok (some EstadoVenta.COMPLETADA, 6, [(TipoMovimiento.SALIDA, 4)]) := by
  decide

/-- C3 amended: purchase creation always yields a PENDIENTE purchase and
changes no stock row and no movement; sale creation with the default estado
PENDIENTE likewise.  (Only crear_venta with the explicit estado COMPLETADA
applies stock effects at creation.) -/
theorem erp_c3_crear_pendiente_sin_efecto (db dbp dbv : DB) (pid cid u : Nat)
    (dsC : List DetalleCompraReq) (dsV : List DetalleVentaReq)
    (hC : crear_compra db pid dsC u = Except.ok dbp)
    (hV : crear_venta db cid dsV u EstadoVenta.PENDIENTE = Except.ok dbv) :
    (∃ c, dbp.compras = db.compras ++ [c] ∧ c.estado = EstadoCompra.PENDIENTE) ∧
    dbp.inventarios = db.inventarios ∧ dbp.movimientos = db.movimientos ∧
    (∃ v, dbv.ventas = db.ventas ++ [v] ∧ v.estado = EstadoVenta.PENDIENTE) ∧
    dbv.inventarios = db.inventarios ∧ dbv.movimientos = db.movimientos := by
  obtain ⟨ds, _, hdb⟩ := crear_compra_ok hC
  obtain ⟨ds2, _, _, hcase⟩ := crear_venta_ok hV
  rcases hcase with ⟨he, _⟩ | ⟨_, hdbv⟩
  · exact absurd he (by decide)
  · subst hdb
    subst hdbv
    exact ⟨⟨_, rfl, rfl⟩, rfl, rfl, ⟨_, rfl, rfl⟩, rfl, rfl⟩

/-- Witness for the amended C3: creating a purchase and a PENDIENTE sale on
the fresh store leaves stock rows and the movement log untouched. -/
theorem erp_c3_crear_pendiente_sin_efecto_witness :
    (∃ c, dbEjemploCompra.compras = dbEjemplo.compras ++ [c] ∧
      c.estado = EstadoCompra.PENDIENTE) ∧
    dbEjemploCompra.inventarios = dbEjemplo.inventarios ∧
    dbEjemploCompra.movimientos = dbEjemplo.movimientos ∧
    (∃ v, dbEjemploVenta.ventas = dbEjemplo.ventas ++ [v] ∧
      v.estado = EstadoVenta.PENDIENTE) ∧
    dbEjemploVenta.inventarios = dbEjemplo.inventarios ∧
    dbEjemploVenta.movimientos = dbEjemplo.movimientos :=
  erp_c3_crear_pendiente_sin_efecto dbEjemplo dbEjemploCompra dbEjemploVenta 1 1 7
    [⟨1, 10, some 4⟩] [⟨1, 2, some 6⟩] (by decide) (by decide)

/-- C4: confirming an order that is not PENDING fails with an error naming
the current state, and the store is unchanged; in particular a second
confirm of an already-confirmed order fails and leaves stock unchanged. -/
theorem erp_c4_confirmar_solo_pendiente (db : DB) (cid vid u : Nat)
    (compra : Compra) (venta : Venta)
    (hc : findCompra db cid = some compra) (hce : compra.estado ≠ EstadoCompra.PENDIENTE)
    (hv : findVenta db vid = some venta) (hve : venta.estado ≠ EstadoVenta.PENDIENTE) :
    confirmar_compra db cid u = Except.error (Err.compraNoPendiente compra.estado) ∧
    runOp (Op.confirmarCompraOp cid u) db = db ∧
    completar_venta db vid u = Except.error (Err.ventaNoPendiente venta.estado) ∧
    runOp (Op.completarVentaOp vid u) db = db := by
  have h1 : confirmar_compra db cid u = Except.error (Err.compraNoPendiente compra.estado) := by
    simp only [confirmar_compra, hc]
    rw [if_pos hce]
  have h2 : completar_venta db vid u = Except.error (Err.ventaNoPendiente venta.estado) := by
    simp only [completar_venta, hv]
    rw [if_pos hve]
  exact ⟨h1, by simp [runOp, opStep, h1], h2, by simp [runOp, opStep, h2]⟩

/-- Witness for C4 at a store whose purchase is already REALIZADA and whose
sale is already COMPLETADA. -/
theorem erp_c4_confirmar_solo_pendiente_witness :
    confirmar_compra dbC4 1 7 = Except.error (Err.compraNoPendiente EstadoCompra.REALIZADA) ∧
    runOp (Op.confirmarCompraOp 1 7) dbC4 = dbC4 ∧
    completar_venta dbC4 1 7 = Except.error (Err.ventaNoPendiente EstadoVenta.COMPLETADA) ∧
    runOp (Op.completarVentaOp 1 7) dbC4 = dbC4 :=
  erp_c4_confirmar_solo_pendiente dbC4 1 1 7
    ⟨1, 1, 1, 7, 40, none, EstadoCompra.REALIZADA, [⟨1, 10, 4⟩]⟩
    ⟨1, 1, 7, 12, EstadoVenta.COMPLETADA, [⟨1, 2, 6⟩]⟩
    (by decide) (by decide) (by decide) (by decide)

/-- C5: cancelling an already-cancelled order fails with the
already-cancelled error, records no movement and changes no field of any
row (the store is unchanged). -/
theorem erp_c5_cancelar_dos_veces (db : DB) (cid vid u : Nat) (motivo : String)
    (compra : Compra) (venta : Venta)
    (hc : findCompra db cid = some compra) (hce : compra.estado = EstadoCompra.ANULADA)
    (hv : findVenta db vid = some venta) (hve : venta.estado = EstadoVenta.CANCELADA) :
    anular_compra db cid u motivo = Except.error Err.compraYaAnulada ∧
    runOp (Op.anularCompraOp cid u motivo) db = db ∧
    cancelar_venta db vid u motivo = Except.error Err.ventaYaCancelada ∧
    runOp (Op.cancelarVentaOp vid u motivo) db = db := by
  have h1 : anular_compra db cid u motivo = Except.error Err.compraYaAnulada := by
    simp only [anular_compra, hc]
    rw [if_pos hce]
  have h2 : cancelar_venta db vid u motivo = Except.error Err.ventaYaCancelada := by
    simp only [cancelar_venta, hv]
    rw [if_pos hve]
  exact ⟨h1, by simp [runOp, opStep, h1], h2, by simp [runOp, opStep, h2]⟩

/-- Witness for C5 at a store whose purchase is already ANULADA and whose
sale is already CANCELADA. -/
theorem erp_c5_cancelar_dos_veces_witness :
    anular_compra dbC5 1 7 "segundo intento de anularla" = Except.error Err.compraYaAnulada ∧
    runOp (Op.anularCompraOp 1 7 "segundo intento de anularla") dbC5 = dbC5 ∧
    cancelar_venta dbC5 1 7 "segundo intento de anularla" = Except.error Err.ventaYaCancelada ∧
    runOp (Op.cancelarVentaOp 1 7 "segundo intento de anularla") dbC5 = dbC5 :=
  erp_c5_cancelar_dos_veces dbC5 1 1 7 "segundo intento de anularla"
    ⟨1, 1, 1, 7, 40, some "pedido duplicado", EstadoCompra.ANULADA, [⟨1, 10, 4⟩]⟩
    ⟨1, 1, 7, 12, EstadoVenta.CANCELADA, [⟨1, 2, 6⟩]⟩
    (by decide) (by decide) (by decide) (by decide)

/-- C6: voiding a REALIZADA purchase fails with the insufficiency error
(naming a product with its required and available quantities, available
less than required) whenever some line's quantity exceeds that product's
current stock, and the store is completely unchanged. -/
theorem erp_c6_anular_sin_stock (db : DB) (cid u : Nat) (motivo : String)
    (compra : Compra) (d : DetalleCompra) (inv : Inventario)
    (hc : findCompra db cid = some compra) (he : compra.estado = EstadoCompra.REALIZADA)
    (hmem : d ∈ compra.detalles)
    (hall : ∀ d' ∈ compra.detalles, (findInv db.inventarios d'.producto_id).isSome)
    (hfind : findInv db.inventarios d.producto_id = some inv)
    (hlt : inv.stock_actual < d.cantidad) :
    (∃ nombre requerido disponible,
      anular_compra db cid u motivo =
        Except.error (Err.stockInsuficienteParaAnular nombre requerido disponible) ∧
      disponible < requerido) ∧
    runOp (Op.anularCompraOp cid u motivo) db = db := by
  obtain ⟨n, r, dis, hval, hdr⟩ :=
    validarStockAnulacion_falla db compra.detalles d inv hmem hall hfind hlt
  have hna : ¬(compra.estado = EstadoCompra.ANULADA) := by
    rw [he]
    simp
  have h1 : anular_compra db cid u motivo =
      Except.error (Err.stockInsuficienteParaAnular n r dis) := by
    simp only [anular_compra, hc]
    rw [if_neg hna, if_pos he]
    simp only [hval]
  exact ⟨⟨n, r, dis, h1, hdr⟩, by simp [runOp, opStep, h1]⟩

/-- Witness for C6: voiding the received purchase of 10 units with only 4
still on hand fails and changes nothing. -/
theorem erp_c6_anular_sin_stock_witness :
    (∃ nombre requerido disponible,
      anular_compra dbC6 1 8 "recepción registrada por error" =
        Except.error (Err.stockInsuficienteParaAnular nombre requerido disponible) ∧
      disponible < requerido) ∧
    runOp (Op.anularCompraOp 1 8 "recepción registrada por error") dbC6 = dbC6 :=
  erp_c6_anular_sin_stock dbC6 1 8 "recepción registrada por error"
    ⟨1, 1, 1, 7, 40, none, EstadoCompra.REALIZADA, [⟨1, 10, 4⟩]⟩
    ⟨1, 10, 4⟩ ⟨1, 4⟩
    (by decide) (by decide) (by decide) (by decide) (by decide) (by decide)

/-- C7 counterexample: the Venta model has no reason field, so cancelling
the completed sale with two different reasons stores identical sale rows:
the cancelled sale does not store the given reason (it survives only in the
reversal movement reference). -/
theorem erp_c7_contraejemplo :
    completar_venta dbC7 1 7 = Except.ok dbC7A ∧
    (cancelar_venta dbC7A 1 8 "devolución del cliente").map DB.ventas =
      (cancelar_venta dbC7A 1 8 "producto dañado").map DB.ventas ∧
    (cancelar_venta dbC7A 1 8 "devolución del cliente").map
      (fun db => (findVenta db 1).map Venta.estado) =
      Except.ok (some EstadoVenta.CANCELADA) := by
  decide

/-- C7 amended: confirming an order and then successfully cancelling it
returns every product's stock to its pre-confirm value (purchase: +Q then
-Q; sale: -Q then +Q per line); the cancelled purchase is ANULADA with
motivo_anulacion set to the given reason, and the cancelled sale is
CANCELADA (the Venta row has no field to store the reason). -/
theorem erp_c7_simetria_confirmar_cancelar (db dbA dbB dbVA dbVB : DB) (cid vid u u2 : Nat) (motivo : String)
    (hca : confirmar_compra db cid u = Except.ok dbA)
    (haa : anular_compra dbA cid u2 motivo = Except.ok dbB)
    (hva : completar_venta db vid u = Except.ok dbVA)
    (hvb : cancelar_venta dbVA vid u2 motivo = Except.ok dbVB) :
    (∀ pid, stockOf dbB pid = stockOf db pid) ∧
    (∃ c, findCompra dbB cid = some c ∧ c.estado = EstadoCompra.ANULADA ∧
      c.motivo_anulacion = some motivo) ∧
    (∀ pid, stockOf dbVB pid = stockOf db pid) ∧
    (∃ v, findVenta dbVB vid = some v ∧ v.estado = EstadoVenta.CANCELADA) := by
  -- purchase chain
  obtain ⟨compra, hc, hpend, hdbA⟩ := confirmar_compra_ok hca
  obtain ⟨h1A, h2A, h3A, h4A, h5A⟩ := aplicarEntradaCompra_efecto compra.numero u compra.detalles db
  have hstockA : ∀ pid, stockOf dbA pid = stockOf db pid + cantidadComprada compra.detalles pid := by
    intro pid
    rw [hdbA]
    exact h1A pid
  have hfindA : findCompra dbA cid = some { compra with estado := EstadoCompra.REALIZADA } := by
    rw [hdbA]
    show (setCompra (aplicarEntradaCompra compra.numero u compra.detalles db).compras cid
      (fun c => { c with estado := EstadoCompra.REALIZADA })).find? (fun c => c.id == cid) = _
    rw [h4A]
    exact findCompra_setCompra_encontrada hc _ (fun c => rfl)
  obtain ⟨compra2, db1, hc2, hna, hcase, hdbB⟩ := anular_compra_ok haa
  have hcompra2 : compra2 = { compra with estado := EstadoCompra.REALIZADA } := by
    rw [hfindA] at hc2
    exact (Option.some.inj hc2).symm
  subst hcompra2
  have hrev : revertirSalidaCompra compra.numero motivo u2 compra.detalles dbA =
      Except.ok db1 := by
    rcases hcase with h | ⟨hnre, _⟩
    · exact h.2.2
    · exact absurd rfl hnre
  obtain ⟨h1R, h2R, h3R, h4R, h5R⟩ :=
    revertirSalidaCompra_efecto _ motivo u2 _ dbA db1 hrev
  have hstockB : ∀ pid, stockOf dbB pid = stockOf db pid := by
    intro pid
    have hr := h1R pid
    have hA := hstockA pid
    rw [hdbB]
    show stockOf db1 pid = stockOf db pid
    omega
  have hfindB : findCompra dbB cid =
      some { compra with estado := EstadoCompra.ANULADA, motivo_anulacion := some motivo } := by
    rw [hdbB]
    show (setCompra db1.compras cid _).find? (fun c => c.id == cid) = _
    rw [h4R]
    exact findCompra_setCompra_encontrada hfindA _ (fun c => rfl)
  -- sale chain
  obtain ⟨venta, dv1, hv, hvpend, hvs, hdbVA⟩ := completar_venta_ok hva
  obtain ⟨h1V, h2V, h3V, h4V, h5V⟩ := aplicarSalidaVenta_efecto vid u venta.detalles db dv1 hvs
  have hstockVA : ∀ pid, stockOf dbVA pid = stockOf db pid - cantidadVendida venta.detalles pid := by
    intro pid
    rw [hdbVA]
    exact h1V pid
  have hfindVA : findVenta dbVA vid = some { venta with estado := EstadoVenta.COMPLETADA } := by
    rw [hdbVA]
    show (setVenta dv1.ventas vid _).find? (fun v => v.id == vid) = _
    rw [h3V]
    exact findVenta_setVenta_encontrada hv _ (fun v => rfl)
  obtain ⟨venta2, dv2, hv2, hvnc, hvcase, hdbVB⟩ := cancelar_venta_ok hvb
  have hventa2 : venta2 = { venta with estado := EstadoVenta.COMPLETADA } := by
    rw [hfindVA] at hv2
    exact (Option.some.inj hv2).symm
  subst hventa2
  have hdev : devolverEntradaVenta vid u2 motivo venta.detalles dbVA = Except.ok dv2 := by
    rcases hvcase with h | ⟨hncom, _⟩
    · exact h.2
    · exact absurd rfl hncom
  obtain ⟨h1D, h2D, h3D, h4D, h5D⟩ :=
    devolverEntradaVenta_efecto vid u2 motivo _ dbVA dv2 hdev
  have hstockVB : ∀ pid, stockOf dbVB pid = stockOf db pid := by
    intro pid
    have hr := h1D pid
    have hA := hstockVA pid
    rw [hdbVB]
    show stockOf dv2 pid = stockOf db pid
    omega
  have hfindVB : findVenta dbVB vid = some { venta with estado := EstadoVenta.CANCELADA } := by
    rw [hdbVB]
    show (setVenta dv2.ventas vid _).find? (fun v => v.id == vid) = _
    rw [h3D]
    exact findVenta_setVenta_encontrada hfindVA _ (fun v => rfl)
  exact ⟨hstockB, ⟨_, hfindB, rfl, rfl⟩, hstockVB, ⟨_, hfindVB, rfl⟩⟩

/-- Witness for the amended C7 on a concrete store: purchase 1 confirmed
then voided, sale 1 completed then cancelled. -/
theorem erp_c7_simetria_confirmar_cancelar_witness :
    (∀ pid, stockOf dbC7cB pid = stockOf dbC7 pid) ∧
    (∃ c, findCompra dbC7cB 1 = some c ∧ c.estado = EstadoCompra.ANULADA ∧
      c.motivo_anulacion = some "pedido duplicado") ∧
    (∀ pid, stockOf dbC7vB pid = stockOf dbC7 pid) ∧
    (∃ v, findVenta dbC7vB 1 = some v ∧ v.estado = EstadoVenta.CANCELADA) :=
  erp_c7_simetria_confirmar_cancelar dbC7 dbC7cA dbC7cB dbC7A dbC7vB 1 1 7 8
    "pedido duplicado" (by decide) (by decide) (by decide) (by decide)

/-- C8: the spec requires purchase creation to reject inactive products and
non-positive quantities before any write, but crear_compra checks neither
(and the serializer's active-product check is commented out): a line whose
product is inactive and whose quantity is 0 is accepted and the purchase is
persisted as PENDIENTE. -/
theorem erp_c8_crear_compra_acepta_inactivo_y_cantidad_cero :
    (findProducto dbC8 1).map Producto.estado = some false ∧
    (crear_compra dbC8 1 [⟨1, 0, some 10⟩] 7).map
      (fun db => (db.compras.map (fun c => (c.estado, c.detalles.map DetalleCompra.cantidad)),
        db.inventarios, db.movimientos)) =
    Except.ok ([(EstadoCompra.PENDIENTE, [0])], [], []) := by
  decide

/-- C9 counterexample: adjusting product 1 from stock 5 to new quantity 5
records one movement with direction SALIDA and quantity 0 — the quantity is
not a positive integer and the direction is SALIDA although the new
quantity is not below the current one. -/
theorem erp_c9_contraejemplo :
    stockOf dbC9 1 = 5 ∧
    (ajustar_stock dbC9 1 5 7 "recuento anual").map
      (fun db => (stockOf db 1, db.movimientos.map (fun m => (m.tipo, m.cantidad)))) =
    Except.ok (5, [(TipoMovimiento.SALIDA, 0)]) := by
  decide

/-- C9 amended: ajustar_stock sets the cached stock to new_quantity and
appends exactly one movement of quantity abs(new - current), with direction
ENTRADA when new is strictly greater than the current quantity and SALIDA
otherwise — including new = current, which records a SALIDA of quantity
0. -/
theorem erp_c9_ajustar_stock_delta (db db2 : DB) (pid : Nat) (nuevo : Int) (u : Nat) (motivo : String)
    (h : ajustar_stock db pid nuevo u motivo = Except.ok db2) :
    stockOf db2 pid = nuevo ∧
    db2.movimientos = db.movimientos ++
      [⟨pid, (if stockOf db pid < nuevo then TipoMovimiento.ENTRADA else TipoMovimiento.SALIDA),
        |nuevo - stockOf db pid|, Referencia.ajuste motivo, u⟩] := by
  obtain ⟨_, hdb⟩ := ajustar_stock_ok h
  subst hdb
  have hself := stockOf_setStock_self (getOrCreateInv db.inventarios pid).2 pid nuevo
    (getOrCreateInv db.inventarios pid).1 (findInv_getOrCreateInv_self db.inventarios pid)
  have hfst : (getOrCreateInv db.inventarios pid).1.stock_actual = stockOf db pid :=
    (getOrCreateInv_fst db.inventarios pid).1
  constructor
  · simp only [stockOf]
    exact hself
  · rw [hfst]
    by_cases hlt : stockOf db pid < nuevo
    · have h0 : (0 : Int) < nuevo - stockOf db pid := by omega
      rw [if_pos h0, if_pos hlt]
    · have h0 : ¬((0 : Int) < nuevo - stockOf db pid) := by omega
      rw [if_neg h0, if_neg hlt]

/-- Witness for the amended C9: adjusting product 1 from 5 down to 2. -/
theorem erp_c9_ajustar_stock_delta_witness :
    stockOf dbC9a 1 = 2 ∧
    dbC9a.movimientos = dbC9.movimientos ++
      [⟨1, (if stockOf dbC9 1 < 2 then TipoMovimiento.ENTRADA else TipoMovimiento.SALIDA),
        |2 - stockOf dbC9 1|, Referencia.ajuste "merma detectada", 7⟩] :=
  erp_c9_ajustar_stock_delta dbC9 dbC9a 1 2 7 "merma detectada" (by decide)

/-- C10: a sale submitted through POST /api/ventas/ is rejected by the
serializer whenever some line's quantity exceeds the product's current
stock — so no sale (not even a PENDIENTE one) is created; when the line
passes the field-level checks (existing active product, quantity between 1
and 10000), the error is precisely the stock-insufficiency error carrying
the available and requested quantities. -/
theorem erp_c10_api_rechaza_stock_insuficiente (db : DB) (req : VentaCreateReq) (u : Nat)
    (d : DetalleVentaReq) (inv : Inventario)
    (hmem : d ∈ req.detalles)
    (hinv : findInv db.inventarios d.producto_id = some inv)
    (hstock : inv.stock_actual < d.cantidad) :
    (∃ e, ventaViewSetCreate db req u = Except.error (ApiErr.validacion e)) ∧
    (∀ p, findProducto db d.producto_id = some p → p.estado = true →
      1 ≤ d.cantidad → d.cantidad ≤ 10000 →
      validarDetalleVentaWrite db d =
        Except.error (SerErr.stockInsuficiente inv.stock_actual d.cantidad)) := by
  have hs : stockOf db d.producto_id < d.cantidad := by
    unfold stockOf
    rw [hinv]
    exact hstock
  obtain ⟨e, he⟩ := validarVentaCreate_falla db req d hmem hs
  refine ⟨⟨e, by simp [ventaViewSetCreate, he]⟩, ?_⟩
  intro p hp hact h1 h2
  have hnact : ¬(p.estado = false) := by simp [hact]
  have hn1 : ¬(d.cantidad < 1) := by omega
  have hn2 : ¬(10000 < d.cantidad) := by omega
  unfold validarDetalleVentaWrite
  rw [hp]
  simp only [hnact, if_false, hn1, hn2]
  rw [hinv]
  simp [hstock]

/-- Witness for C10: requesting 5 units with 3 on hand is rejected. -/
theorem erp_c10_api_rechaza_stock_insuficiente_witness :
    (∃ e, ventaViewSetCreate dbC10 reqC10 7 = Except.error (ApiErr.validacion e)) ∧
    (∀ p, findProducto dbC10 1 = some p → p.estado = true →
      1 ≤ (5 : Int) → (5 : Int) ≤ 10000 →
      validarDetalleVentaWrite dbC10 ⟨1, 5, some 6⟩ =
        Except.error (SerErr.stockInsuficiente 3 5)) :=
  erp_c10_api_rechaza_stock_insuficiente dbC10 reqC10 7 ⟨1, 5, some 6⟩ ⟨1, 3⟩
    (by decide) (by decide) (by decide)

end ERP
